import Mathlib

/-!
Shallow embedding of the core state machines of the gretchen sign-language
chat repository:

* `LetterAccumulator` (src/recognizer.py lines 14-62; the copy in
  src/recognizer_mediapipe.py lines 26-64 is identical except that it does
  not keep the diagnostic `confirmed_letter` field),
* the turn-taking protocol `TurnProtocol` (src/protocol.py),
* the ratio-threshold decision of `detect_border_color`
  (src/recognizer.py lines 218-226, thresholds from src/config.py),
* the sentence-assembly step of `listen_for_sentence`
  (src/chat_claude_to_claude.py lines 243-261),
* the word drain `get_word` (src/recognizer.py lines 159-164).

Python `None`-able strings become `Option String`, mutation becomes explicit
state passing, and wall-clock times become rationals.
-/

/-- State of `LetterAccumulator` (src/recognizer.py lines 17-24). -/
structure LetterAccumulator where
  required_frames : Nat
  max_gap : Nat
  current_letter : Option String
  count : Nat
  gap : Nat
  confirmed_letter : Option String
deriving DecidableEq, Repr

/-- `LetterAccumulator.__init__` (src/recognizer.py lines 17-24): fresh state. -/
def LetterAccumulator.init (required_frames max_gap : Nat) : LetterAccumulator :=
  { required_frames := required_frames
    max_gap := max_gap
    current_letter := none
    count := 0
    gap := 0
    confirmed_letter := none }

/-- `LetterAccumulator.reset` (src/recognizer.py lines 57-62). -/
def LetterAccumulator.reset (a : LetterAccumulator) : LetterAccumulator :=
  { a with current_letter := none, count := 0, gap := 0, confirmed_letter := none }

/-- `LetterAccumulator.update` (src/recognizer.py lines 26-55): feed one
detection result, return the confirmed letter (if any) and the new state. -/
def LetterAccumulator.update (a : LetterAccumulator) (detected_letter : Option String) :
    Option String × LetterAccumulator :=
  let a := { a with confirmed_letter := none }
  match detected_letter with
  | none =>
    let a := { a with gap := a.gap + 1 }
    if a.gap > a.max_gap then
      (none, { a with current_letter := none, count := 0 })
    else
      (none, a)
  | some d =>
    let a := { a with gap := 0 }
    let a :=
      if some d = a.current_letter then
        { a with count := a.count + 1 }
      else
        { a with current_letter := some d, count := 1 }
    if a.count ≥ a.required_frames then
      (a.current_letter,
        { a with confirmed_letter := a.current_letter, count := 0, current_letter := none })
    else
      (none, a)

/-- Run `update` over a list of per-tick detections, collecting the outputs. -/
def LetterAccumulator.run (a : LetterAccumulator) :
    List (Option String) → List (Option String) × LetterAccumulator
  | [] => ([], a)
  | x :: xs =>
    let r := a.update x
    let rest := r.2.run xs
    (r.1 :: rest.1, rest.2)

/-- `config.ACCUMULATION_FRAMES` (src/config.py line 25). -/
def ACCUMULATION_FRAMES : Nat := 8

/-- `config.MAX_GAP_FRAMES` (src/config.py line 27). -/
def MAX_GAP_FRAMES : Nat := 3

/-- One absent-input tick: the gap counter advances by one, and the candidate
and match counter are abandoned exactly when the new gap value exceeds
`max_gap` (src/recognizer.py lines 33-38). -/
theorem LetterAccumulator.update_none (a : LetterAccumulator) :
    a.update none =
      (none,
        { a with
          gap := a.gap + 1
          confirmed_letter := none
          current_letter := if a.max_gap < a.gap + 1 then none else a.current_letter
          count := if a.max_gap < a.gap + 1 then 0 else a.count }) := by
  by_cases h : a.max_gap < a.gap + 1 <;>
    simp [LetterAccumulator.update, h]

/-- Unfolding lemma for `run` on a nonempty input list. -/
theorem LetterAccumulator.run_cons (a : LetterAccumulator) (x : Option String)
    (xs : List (Option String)) :
    a.run (x :: xs) =
      ((a.update x).1 :: ((a.update x).2.run xs).1, ((a.update x).2.run xs).2) := rfl

/-- Running a positive number of absent-input ticks only advances the gap
counter, and abandons the candidate and match counter exactly when the final
gap value exceeds `max_gap` (src/recognizer.py lines 33-38). -/
theorem LetterAccumulator.run_none_succ (j : Nat) :
    ∀ a : LetterAccumulator,
    a.run (List.replicate (j + 1) none) =
      (List.replicate (j + 1) none,
        { a with gap := a.gap + (j + 1), confirmed_letter := none,
                 current_letter :=
                   if a.max_gap < a.gap + (j + 1) then none else a.current_letter,
                 count := if a.max_gap < a.gap + (j + 1) then 0 else a.count }) := by
  induction j with
  | zero =>
    intro a
    show a.run [none] = _
    rw [LetterAccumulator.run_cons, LetterAccumulator.update_none]
    simp only [LetterAccumulator.run, List.replicate, Nat.zero_add]
  | succ n ih =>
    intro a
    show a.run (none :: List.replicate (n + 1) none) = _
    rw [LetterAccumulator.run_cons, LetterAccumulator.update_none, ih]
    have h4 : a.gap + 1 + (n + 1) = a.gap + (n + 1 + 1) := by omega
    simp only [Prod.mk.injEq, h4]
    refine ⟨rfl, ?_⟩
    by_cases h : a.max_gap < a.gap + 1
    · have h2 : a.max_gap < a.gap + (n + 1 + 1) := by omega
      simp [h, h2]
    · simp [h]

/-- One present-input tick (src/recognizer.py lines 40-55): the gap counter is
zeroed; the effective count is `count + 1` on a candidate match and `1`
otherwise; reaching `required_frames` confirms the letter and clears the
candidate and count. -/
theorem LetterAccumulator.update_some (a : LetterAccumulator) (d : String) :
    a.update (some d) =
      (if a.required_frames ≤ (if some d = a.current_letter then a.count + 1 else 1) then
        (some d,
          { a with
            current_letter := none
            count := 0
            gap := 0
            confirmed_letter := some d })
      else
        (none,
          { a with
            current_letter := some d
            count := if some d = a.current_letter then a.count + 1 else 1
            gap := 0
            confirmed_letter := none })) := by
  by_cases hm : some d = a.current_letter
  · have hm' : a.current_letter = some d := hm.symm
    by_cases hc : a.required_frames ≤ a.count + 1 <;>
      simp [LetterAccumulator.update, hm', hc]
  · by_cases hc : a.required_frames ≤ 1 <;>
      simp [LetterAccumulator.update, hm, hc]

/-- C1: with `required_frames = 8`, starting fresh, feeding the same symbol 8
consecutive times confirms it exactly once, on the 8th call, and resets the
accumulator; a 9th identical input starts a fresh count of 1. -/
theorem C1_run_length_law (s : String) (g : Nat) :
    (((LetterAccumulator.init 8 g).run (List.replicate 8 (some s))).1 =
        List.replicate 7 none ++ [some s]) ∧
    ((LetterAccumulator.init 8 g).run (List.replicate 8 (some s))).2.current_letter = none ∧
    ((LetterAccumulator.init 8 g).run (List.replicate 8 (some s))).2.count = 0 ∧
    (((LetterAccumulator.init 8 g).run (List.replicate 9 (some s))).1 =
        List.replicate 7 none ++ [some s, none]) ∧
    ((LetterAccumulator.init 8 g).run (List.replicate 9 (some s))).2.current_letter = some s ∧
    ((LetterAccumulator.init 8 g).run (List.replicate 9 (some s))).2.count = 1 := by
  simp [LetterAccumulator.run, LetterAccumulator.update, LetterAccumulator.init,
    List.replicate]

/-- C3: with `required_frames = 8` and `max_gap = 3`, starting fresh, the
sequence s,s,s,None,None,s,s,s,s,s confirms s exactly once, on the final
call; and from any in-progress state whose gap counter is zero, a run of `g`
absent ticks clears the candidate and match counter when `g` exceeds
`max_gap`, and leaves both intact when `g ≤ max_gap`. -/
theorem C3_gap_tolerance (s : String) (a : LetterAccumulator) (g : Nat)
    (h0 : a.gap = 0) (h1 : 1 ≤ g) :
    (((LetterAccumulator.init 8 3).run
        [some s, some s, some s, none, none, some s, some s, some s, some s, some s]).1 =
      [none, none, none, none, none, none, none, none, none, some s]) ∧
    (a.max_gap < g →
      (a.run (List.replicate g none)).2.current_letter = none ∧
      (a.run (List.replicate g none)).2.count = 0) ∧
    (g ≤ a.max_gap →
      (a.run (List.replicate g none)).2.current_letter = a.current_letter ∧
      (a.run (List.replicate g none)).2.count = a.count) := by
  obtain ⟨j, rfl⟩ : ∃ j, g = j + 1 := ⟨g - 1, by omega⟩
  refine ⟨?_, ?_, ?_⟩
  · simp [LetterAccumulator.run, LetterAccumulator.update, LetterAccumulator.init]
  · intro hg
    rw [LetterAccumulator.run_none_succ]
    have hc : a.max_gap < a.gap + (j + 1) := by omega
    simp [hc]
  · intro hg
    rw [LetterAccumulator.run_none_succ]
    have hc : ¬ a.max_gap < a.gap + (j + 1) := by omega
    simp [hc]

/-- Witness for C3 at s = "A", an in-progress run of count 2, and a gap run
of length 4 > max_gap = 3. -/
theorem C3_gap_tolerance_witness :
    ((⟨8, 3, some "A", 2, 0, none⟩ : LetterAccumulator).gap = 0 ∧ (1 : Nat) ≤ 4) ∧
    ((((LetterAccumulator.init 8 3).run
        [some "A", some "A", some "A", none, none, some "A", some "A", some "A", some "A",
          some "A"]).1 =
      [none, none, none, none, none, none, none, none, none, some "A"]) ∧
    ((⟨8, 3, some "A", 2, 0, none⟩ : LetterAccumulator).max_gap < 4 →
      ((⟨8, 3, some "A", 2, 0, none⟩ : LetterAccumulator).run
          (List.replicate 4 none)).2.current_letter = none ∧
      ((⟨8, 3, some "A", 2, 0, none⟩ : LetterAccumulator).run
          (List.replicate 4 none)).2.count = 0) ∧
    (4 ≤ (⟨8, 3, some "A", 2, 0, none⟩ : LetterAccumulator).max_gap →
      ((⟨8, 3, some "A", 2, 0, none⟩ : LetterAccumulator).run
          (List.replicate 4 none)).2.current_letter =
        (⟨8, 3, some "A", 2, 0, none⟩ : LetterAccumulator).current_letter ∧
      ((⟨8, 3, some "A", 2, 0, none⟩ : LetterAccumulator).run
          (List.replicate 4 none)).2.count =
        (⟨8, 3, some "A", 2, 0, none⟩ : LetterAccumulator).count)) :=
  ⟨⟨rfl, by decide⟩,
    C3_gap_tolerance "A" ⟨8, 3, some "A", 2, 0, none⟩ 4 rfl (by decide)⟩

/-- The between-calls invariant of the accumulator: the candidate is absent
exactly when the match count is zero, and the match count never reaches
`required_frames`. -/
def LetterAccumulator.Inv (a : LetterAccumulator) : Prop :=
  (a.current_letter = none ↔ a.count = 0) ∧ a.count < a.required_frames

instance (a : LetterAccumulator) : Decidable a.Inv := by
  unfold LetterAccumulator.Inv; infer_instance

/-- A single `update` call preserves the invariant and the configured
`required_frames`. -/
theorem LetterAccumulator.update_inv (a : LetterAccumulator) (x : Option String)
    (h1 : 1 ≤ a.required_frames) (h : a.Inv) :
    (a.update x).2.Inv ∧ (a.update x).2.required_frames = a.required_frames := by
  obtain ⟨hiff, hlt⟩ := h
  cases x with
  | none =>
    rw [LetterAccumulator.update_none]
    by_cases hg : a.max_gap < a.gap + 1 <;>
      simp [LetterAccumulator.Inv, hg, hiff, hlt, h1] <;> omega
  | some d =>
    rw [LetterAccumulator.update_some]
    by_cases hcond :
        a.required_frames ≤ (if some d = a.current_letter then a.count + 1 else 1)
    · rw [if_pos hcond]
      refine ⟨⟨by simp, ?_⟩, rfl⟩
      show (0 : Nat) < a.required_frames
      omega
    · rw [if_neg hcond]
      refine ⟨⟨?_, ?_⟩, rfl⟩
      · refine iff_of_false (by simp) ?_
        show ¬ (if some d = a.current_letter then a.count + 1 else 1) = 0
        split <;> omega
      · show (if some d = a.current_letter then a.count + 1 else 1) < a.required_frames
        by_cases hm : some d = a.current_letter <;> (simp [hm] at hcond ⊢; omega)

/-- Any run from an invariant-satisfying state lands in an
invariant-satisfying state with the same `required_frames`. -/
theorem LetterAccumulator.run_inv (inputs : List (Option String)) :
    ∀ a : LetterAccumulator, 1 ≤ a.required_frames → a.Inv →
      (a.run inputs).2.Inv ∧ (a.run inputs).2.required_frames = a.required_frames := by
  induction inputs with
  | nil => intro a _ h; exact ⟨h, rfl⟩
  | cons x xs ih =>
    intro a h1 h
    rw [LetterAccumulator.run_cons]
    obtain ⟨h', hreq⟩ := a.update_inv x h1 h
    obtain ⟨h'', hreq'⟩ := ih (a.update x).2 (hreq ▸ h1) h'
    exact ⟨h'', hreq'.trans hreq⟩

/-- C10: for `required_frames ≥ 1`, after any sequence of `update` calls from
a fresh accumulator, the candidate is `none` iff the match count is zero, and
the match count stays strictly below `required_frames`. -/
theorem C10_partial_run_invariant (r g : Nat) (hr : 1 ≤ r)
    (inputs : List (Option String)) :
    (((LetterAccumulator.init r g).run inputs).2.current_letter = none ↔
      ((LetterAccumulator.init r g).run inputs).2.count = 0) ∧
    ((LetterAccumulator.init r g).run inputs).2.count < r := by
  have h0 : (LetterAccumulator.init r g).Inv := by
    constructor
    · simp [LetterAccumulator.init]
    · show (LetterAccumulator.init r g).count < (LetterAccumulator.init r g).required_frames
      simp only [LetterAccumulator.init]
      omega
  obtain ⟨⟨hiff, hlt⟩, hreq⟩ :=
    LetterAccumulator.run_inv inputs (LetterAccumulator.init r g) hr h0
  refine ⟨hiff, ?_⟩
  rw [hreq] at hlt
  simpa [LetterAccumulator.init] using hlt

/-- Witness for C10 at required_frames = 8, max_gap = 3 and the input
sequence A, A, None. -/
theorem C10_partial_run_invariant_witness :
    (1 : Nat) ≤ 8 ∧
    ((((LetterAccumulator.init 8 3).run [some "A", some "A", none]).2.current_letter = none ↔
      ((LetterAccumulator.init 8 3).run [some "A", some "A", none]).2.count = 0) ∧
    ((LetterAccumulator.init 8 3).run [some "A", some "A", none]).2.count < 8) :=
  ⟨by decide, C10_partial_run_invariant 8 3 (by decide) [some "A", some "A", none]⟩

/-- C6 as stated is false: from a fresh accumulator (required_frames = 8,
max_gap = 3), update (some "A") changes the candidate (None → "A") yet leaves
the match count at 1, not 0 (src/recognizer.py line 46 sets count = 1). -/
theorem C6_counterexample :
    some "A" ≠ (LetterAccumulator.init 8 3).current_letter ∧
    ((LetterAccumulator.init 8 3).update (some "A")).2.count = 1 ∧
    ¬ ((LetterAccumulator.init 8 3).update (some "A")).2.count = 0 := by decide

/-- C6 amended: a candidate-changing `update` call leaves the match count at 1
(the new input itself counts as the first match), except that with
`required_frames ≤ 1` the confirmation fires at once and the count is 0; and
after any `update` call with a present input the gap counter is 0. -/
theorem C6_count_gap_reset (a : LetterAccumulator) (d e : String)
    (hchange : some d ≠ a.current_letter) :
    ((a.update (some d)).2.count = if a.required_frames ≤ 1 then 0 else 1) ∧
    (a.update (some e)).2.gap = 0 := by
  constructor
  · rw [LetterAccumulator.update_some]
    simp only [if_neg hchange]
    by_cases hc : a.required_frames ≤ 1 <;> simp [hc]
  · rw [LetterAccumulator.update_some]
    by_cases hc :
        a.required_frames ≤ (if some e = a.current_letter then a.count + 1 else 1) <;>
      simp [hc]

/-- Witness for C6 amended, at a fresh accumulator with d = "A", e = "B". -/
theorem C6_count_gap_reset_witness :
    some "A" ≠ (LetterAccumulator.init 8 3).current_letter ∧
    ((((LetterAccumulator.init 8 3).update (some "A")).2.count =
        if (LetterAccumulator.init 8 3).required_frames ≤ 1 then 0 else 1) ∧
      ((LetterAccumulator.init 8 3).update (some "B")).2.gap = 0) :=
  ⟨by decide, C6_count_gap_reset (LetterAccumulator.init 8 3) "A" "B" (by decide)⟩

/-- The drain-relevant state of `ASLRecognizer` (src/recognizer.py lines
65-75): the letter accumulator plus the buffer of confirmed letters. The
`MediaPipeRecognizer` of src/recognizer_mediapipe.py keeps the same two
fields and has a character-identical `get_word`. -/
structure ASLRecognizer where
  accumulator : LetterAccumulator
  word_buffer : List String
deriving DecidableEq, Repr

/-- `ASLRecognizer.get_word` (src/recognizer.py lines 159-164): join the
buffered letters, clear the buffer, reset the accumulator, return the word. -/
def ASLRecognizer.get_word (r : ASLRecognizer) : String × ASLRecognizer :=
  (String.join r.word_buffer,
    { r with word_buffer := [], accumulator := r.accumulator.reset })

/-- C9: for every recognizer state, the first `get_word` returns the joined
buffer contents, clears the buffer and resets the accumulator, so a second
immediate `get_word` returns the empty string. -/
theorem C9_idempotent_drain (r : ASLRecognizer) :
    r.get_word.1 = String.join r.word_buffer ∧
    r.get_word.2.word_buffer = [] ∧
    r.get_word.2.accumulator = r.accumulator.reset ∧
    r.get_word.2.get_word.1 = "" := by
  refine ⟨rfl, rfl, rfl, ?_⟩
  simp [ASLRecognizer.get_word, String.join]

/-- The `State` enum of the turn protocol (src/protocol.py lines 14-19). -/
inductive State
  | idle
  | speaking
  | done_speaking
  | listening
  | waiting_for_turn
deriving DecidableEq, Repr

/-- `TurnProtocol` state (src/protocol.py lines 33-40): the current protocol
state, the wall-clock time red was first shown (`_done_time`, `None` until
`finish_speaking`), and `_done_duration` (2.0 seconds). Wall-clock times are
modelled as rationals. -/
structure TurnProtocol where
  state : State
  done_time : Option ℚ
  done_duration : ℚ
deriving DecidableEq, Repr

/-- `TurnProtocol.__init__` (src/protocol.py lines 33-40). -/
def TurnProtocol.init (starts_as_speaker : Bool) : TurnProtocol :=
  { state := if starts_as_speaker then State.speaking else State.listening
    done_time := none
    done_duration := 2 }

/-- `TurnProtocol.finish_speaking` (src/protocol.py lines 69-72). -/
def TurnProtocol.finish_speaking (p : TurnProtocol) (now : ℚ) : TurnProtocol :=
  { p with state := State.done_speaking, done_time := some now }

/-- `TurnProtocol.update` (src/protocol.py lines 74-106): advance the state
machine on one detected border color, returning the emitted event and the new
state. The guard `if self._done_time` is Python truthiness: it fails both for
`None` and for the float `0.0`, hence the `t ≠ 0` conjunct. -/
def TurnProtocol.update (p : TurnProtocol) (detected_border_color : Option String)
    (now : ℚ) : Option String × TurnProtocol :=
  if p.state = State.done_speaking then
    match p.done_time with
    | some t =>
      if t ≠ 0 ∧ now - t > p.done_duration then
        (some "done_timeout", { p with state := State.listening })
      else
        (none, p)
    | none => (none, p)
  else if p.state = State.listening then
    if detected_border_color = some "green" then
      (some "letter_incoming", p)
    else if detected_border_color = some "red" then
      (some "turn_received", { p with state := State.speaking })
    else
      (none, p)
  else if p.state = State.waiting_for_turn then
    if detected_border_color = some "cyan" then
      (some "turn_received", { p with state := State.speaking })
    else
      (none, p)
  else
    (none, p)

/-- C2: in LISTENING, a detected RED border immediately transitions to
SPEAKING with event "turn_received" — unconditionally, with no requirement
that GREEN was ever observed — and a detected GREEN border leaves the state
at LISTENING with event "letter_incoming". -/
theorem C2_turn_recovery (p : TurnProtocol) (now : ℚ)
    (h : p.state = State.listening) :
    p.update (some "red") now =
      (some "turn_received", { p with state := State.speaking }) ∧
    p.update (some "green") now = (some "letter_incoming", p) ∧
    (p.update (some "green") now).2.state = State.listening := by
  refine ⟨?_, ?_, ?_⟩ <;> simp [TurnProtocol.update, h]

/-- Witness for C2 at the listener-first initial protocol state and now = 0. -/
theorem C2_turn_recovery_witness :
    (TurnProtocol.init false).state = State.listening ∧
    ((TurnProtocol.init false).update (some "red") 0 =
        (some "turn_received", { TurnProtocol.init false with state := State.speaking }) ∧
      (TurnProtocol.init false).update (some "green") 0 =
        (some "letter_incoming", TurnProtocol.init false) ∧
      ((TurnProtocol.init false).update (some "green") 0).2.state = State.listening) :=
  ⟨rfl, C2_turn_recovery (TurnProtocol.init false) 0 rfl⟩

/-- C7 as stated is false: in DONE_SPEAKING with done_time 1 and
done_duration 2, a call at now = 3 has elapsed time exactly equal to
done_duration, yet the code (src/protocol.py line 88 uses a strict `>`)
stays in DONE_SPEAKING and emits no event. -/
theorem C7_counterexample :
    (3 : ℚ) - 1 ≥ (⟨State.done_speaking, some 1, 2⟩ : TurnProtocol).done_duration ∧
    ((⟨State.done_speaking, some 1, 2⟩ : TurnProtocol).update none 3).2.state =
      State.done_speaking ∧
    ((⟨State.done_speaking, some 1, 2⟩ : TurnProtocol).update none 3).1 = none := by
  refine ⟨by norm_num, ?_, ?_⟩ <;> norm_num [TurnProtocol.update]

/-- C7 amended: in DONE_SPEAKING (with a nonzero recorded done_time t), an
update call transitions to LISTENING with event "done_timeout" exactly when
the elapsed time now - t strictly exceeds done_duration; when
now - t ≤ done_duration the state stays DONE_SPEAKING and no event is
emitted. -/
theorem C7_done_timeout (p : TurnProtocol) (t now : ℚ) (d : Option String)
    (hs : p.state = State.done_speaking) (ht : p.done_time = some t)
    (ht0 : t ≠ 0) :
    (p.done_duration < now - t →
      p.update d now = (some "done_timeout", { p with state := State.listening })) ∧
    (now - t ≤ p.done_duration → p.update d now = (none, p)) := by
  constructor <;> intro h
  · simp [TurnProtocol.update, hs, ht, ht0, h]
  · have h' : ¬ p.done_duration < now - t := not_lt.mpr h
    simp [TurnProtocol.update, hs, ht, h']

/-- Witness for C7 amended at done_time 1, done_duration 2, now = 4. -/
theorem C7_done_timeout_witness :
    ((⟨State.done_speaking, some 1, 2⟩ : TurnProtocol).state = State.done_speaking ∧
      (⟨State.done_speaking, some 1, 2⟩ : TurnProtocol).done_time = some 1 ∧
      (1 : ℚ) ≠ 0) ∧
    (((⟨State.done_speaking, some 1, 2⟩ : TurnProtocol).done_duration < 4 - 1 →
      (⟨State.done_speaking, some 1, 2⟩ : TurnProtocol).update none 4 =
        (some "done_timeout",
          { (⟨State.done_speaking, some 1, 2⟩ : TurnProtocol) with
              state := State.listening })) ∧
    ((4 : ℚ) - 1 ≤ (⟨State.done_speaking, some 1, 2⟩ : TurnProtocol).done_duration →
      (⟨State.done_speaking, some 1, 2⟩ : TurnProtocol).update none 4 =
        (none, (⟨State.done_speaking, some 1, 2⟩ : TurnProtocol)))) :=
  ⟨⟨rfl, rfl, by norm_num⟩,
    C7_done_timeout ⟨State.done_speaking, some 1, 2⟩ 1 4 none rfl rfl (by norm_num)⟩

/-- C8 as stated is false: a newly constructed TurnProtocol never starts in
IDLE — it starts in SPEAKING when configured speaker-first and in LISTENING
when configured listener-first (src/protocol.py lines 33-37). -/
theorem C8_counterexample :
    (TurnProtocol.init true).state = State.speaking ∧
    (TurnProtocol.init true).state ≠ State.idle ∧
    (TurnProtocol.init false).state = State.listening ∧
    (TurnProtocol.init false).state ≠ State.idle := by
  refine ⟨rfl, by decide, rfl, by decide⟩

/-- C8 amended: the initial state of a newly constructed TurnProtocol is
determined by the configured role — SPEAKING for speaker-first, LISTENING for
listener-first — and is never IDLE. -/
theorem C8_initial_state (b : Bool) :
    (TurnProtocol.init b).state = (if b then State.speaking else State.listening) ∧
    (TurnProtocol.init b).state ≠ State.idle := by
  cases b <;> exact ⟨rfl, by decide⟩

/-- `config.BORDER_COLOR_MIN_RATIO` (src/config.py line 62). -/
def BorderColorMinRatio : ℚ := 3 / 10

/-- The ratio-threshold decision of `detect_border_color` (src/recognizer.py
lines 218-226): given the fractions of border-sample pixels falling inside
the green, red and cyan HSV ranges, pick the color with the highest ratio —
Python's `max` over the dict iterates in insertion order green, red, cyan and
replaces only on a strictly greater value, so earlier colors win ties — and
return it only if its ratio meets `BorderColorMinRatio`, else `None`. The
pixel sampling and HSV masking (lines 180-216) that produce the three ratios
are cv2/numpy frame processing, treated as the opaque front end. -/
def detect_border_color (green_ratio red_ratio cyan_ratio : ℚ) : Option String :=
  let best :=
    let b := ("green", green_ratio)
    let b := if red_ratio > b.2 then ("red", red_ratio) else b
    if cyan_ratio > b.2 then ("cyan", cyan_ratio) else b
  if best.2 ≥ BorderColorMinRatio then some best.1 else none

/-- C5: a frame whose green ratio meets the minimum ratio 0.3 while the red
and cyan ratios are below it decodes to "green"; a frame with all three
ratios below the minimum ratio decodes to None. -/
theorem C5_decoder_threshold (g r c : ℚ)
    (hg : BorderColorMinRatio ≤ g)
    (hr : r < BorderColorMinRatio) (hc : c < BorderColorMinRatio) :
    detect_border_color g r c = some "green" ∧
    ∀ g' r' c' : ℚ, g' < BorderColorMinRatio → r' < BorderColorMinRatio →
      c' < BorderColorMinRatio → detect_border_color g' r' c' = none := by
  constructor
  · have h1 : ¬ r > g := not_lt.mpr ((lt_of_lt_of_le hr hg).le)
    have h2 : ¬ c > g := not_lt.mpr ((lt_of_lt_of_le hc hg).le)
    simp [detect_border_color, h1, h2, hg]
  · intro g' r' c' h1 h2 h3
    simp only [detect_border_color, BorderColorMinRatio] at *
    split_ifs <;> first | rfl | (exfalso; simp_all; linarith)

/-- Witness for C5 at green ratio 1/2, red ratio 0, cyan ratio 1/10. -/
theorem C5_decoder_threshold_witness :
    (BorderColorMinRatio ≤ (1 / 2 : ℚ) ∧ (0 : ℚ) < BorderColorMinRatio ∧
      (1 / 10 : ℚ) < BorderColorMinRatio) ∧
    (detect_border_color (1 / 2) 0 (1 / 10) = some "green" ∧
    ∀ g' r' c' : ℚ, g' < BorderColorMinRatio → r' < BorderColorMinRatio →
      c' < BorderColorMinRatio → detect_border_color g' r' c' = none) :=
  ⟨⟨by norm_num [BorderColorMinRatio], by norm_num [BorderColorMinRatio],
      by norm_num [BorderColorMinRatio]⟩,
    C5_decoder_threshold (1 / 2) 0 (1 / 10) (by norm_num [BorderColorMinRatio])
      (by norm_num [BorderColorMinRatio]) (by norm_num [BorderColorMinRatio])⟩

/-- `SPACE_GAP_FRAMES` (src/chat_claude_to_claude.py line 46). -/
def SPACE_GAP_FRAMES : Nat := 8

/-- Per-tick sentence-assembly state of `listen_for_sentence`
(src/chat_claude_to_claude.py lines 208-210): the characters gathered so far,
the count of consecutive detection ticks with no hand visible, and the flag
recording that a space was already inserted for the current gap. -/
structure ListenState where
  sentence : List Char
  no_hand_frames : Nat
  space_inserted : Bool
deriving DecidableEq, Repr

/-- Initial assembly state (src/chat_claude_to_claude.py lines 208-210). -/
def ListenState.init : ListenState :=
  { sentence := [], no_hand_frames := 0, space_inserted := true }

/-- One detection tick of `listen_for_sentence`
(src/chat_claude_to_claude.py lines 240-261): `best` is the classifier's
per-frame letter (its presence signals hand presence), `confirmed` the
accumulator's confirmed letter for this tick. -/
def listenStep (st : ListenState) (best confirmed : Option Char) : ListenState :=
  let st :=
    match best with
    | some _ => { st with no_hand_frames := 0, space_inserted := false }
    | none => { st with no_hand_frames := st.no_hand_frames + 1 }
  let st :=
    if SPACE_GAP_FRAMES ≤ st.no_hand_frames ∧ st.space_inserted = false ∧
        st.sentence ≠ [] ∧ st.sentence.getLast? ≠ some ' ' then
      { st with sentence := st.sentence ++ [' '], space_inserted := true }
    else st
  match confirmed with
  | some ch =>
    if st.sentence = [] ∨ st.sentence.getLast? ≠ some ch then
      { st with sentence := st.sentence ++ [ch] }
    else st
  | none => st

/-- Run the sentence-assembly loop over a list of
(per-frame letter, confirmed letter) detection ticks. -/
def listenRun (st : ListenState) : List (Option Char × Option Char) → ListenState
  | [] => st
  | x :: xs => listenRun (listenStep st x.1 x.2) xs

/-- Appending a character that differs from the current last character
preserves the no-adjacent-duplicates property. -/
theorem chain_ne_append (l : List Char) (ch : Char)
    (h : List.Chain' (· ≠ ·) l) (hg : l = [] ∨ l.getLast? ≠ some ch) :
    List.Chain' (· ≠ ·) (l ++ [ch]) := by
  rcases hg with rfl | hg
  · simp
  · rw [List.chain'_append]
    refine ⟨h, List.chain'_singleton _, ?_⟩
    intro x hx y hy
    simp only [List.head?_cons, Option.mem_def, Option.some.injEq] at hy
    subst hy
    intro hxy
    subst hxy
    exact hg (by simpa using hx)

/-- One assembly tick preserves the no-adjacent-duplicates invariant. -/
theorem listenStep_inv (st : ListenState) (b c : Option Char)
    (h : List.Chain' (· ≠ ·) st.sentence) :
    List.Chain' (· ≠ ·) (listenStep st b c).sentence := by
  unfold listenStep
  cases b <;> cases c <;> simp only <;> split_ifs <;>
    first
      | assumption
      | (apply chain_ne_append _ _ h; simp_all)
      | (apply chain_ne_append _ _ (chain_ne_append _ _ h (by simp_all)); simp_all)

/-- Every state reached from the initial assembly state keeps the invariant. -/
theorem listenRun_inv (inputs : List (Option Char × Option Char)) :
    ∀ st : ListenState, List.Chain' (· ≠ ·) st.sentence →
      List.Chain' (· ≠ ·) (listenRun st inputs).sentence := by
  induction inputs with
  | nil => intro st h; exact h
  | cons x xs ih =>
    intro st h
    exact ih _ (listenStep_inv st x.1 x.2 h)

/-- C4: throughout sentence assembly the buffer never holds two adjacent
equal characters — in particular no two adjacent spaces and no two adjacent
identical letters; the confirmed stream H,E,L,L,O with the hand present
throughout yields "HELO", and the same stream with an absence gap of
`SPACE_GAP_FRAMES` ticks between the two L's yields "HEL LO". -/
theorem C4_buffer_invariant (inputs : List (Option Char × Option Char)) :
    List.Chain' (· ≠ ·) (listenRun ListenState.init inputs).sentence ∧
    (listenRun ListenState.init
        [(some 'H', some 'H'), (some 'E', some 'E'), (some 'L', some 'L'),
          (some 'L', some 'L'), (some 'O', some 'O')]).sentence =
      ['H', 'E', 'L', 'O'] ∧
    (listenRun ListenState.init
        ([(some 'H', some 'H'), (some 'E', some 'E'), (some 'L', some 'L')] ++
          List.replicate 8 ((none : Option Char), (none : Option Char)) ++
          [(some 'L', some 'L'), (some 'O', some 'O')])).sentence =
      ['H', 'E', 'L', ' ', 'L', 'O'] := by
  refine ⟨listenRun_inv inputs ListenState.init (by simp [ListenState.init]), ?_, ?_⟩ <;>
    decide
